import Mathlib

/-!
Shallow embedding of the smart-farming dashboard (`src/farm_dashboard.py`)
and verification of its specification.

Numeric weather values (Python floats) are modelled as exact rationals `ℚ`;
nullable inputs (`None` in Python) as `Option ℚ`.  Python's `round(x, 2)` is
modelled as rounding `x * 100` to the nearest integer (`round2` below); the
two sides of every claim use the same rounding function, so tie-breaking
conventions do not affect any statement proved here.
-/

/-- The "no data" sentinel string returned by the advisory functions. -/
def noData : String := "Data not available"

/-- Crop category string for rule 1 of `crop_recommendation`. -/
def cropRiceMaize : String := "🌾 Best fit: Rice / Maize"

/-- Crop category string for rule 2 of `crop_recommendation`. -/
def cropPulses : String := "🌿 Best fit: Pulses / Groundnut"

/-- Crop category string for rule 3 of `crop_recommendation`. -/
def cropWheat : String := "🌾 Best fit: Wheat / Barley"

/-- Fallback crop category string of `crop_recommendation`. -/
def cropMixed : String := "🌱 Mixed conditions → Consider Vegetables / Millets"

/-- `crop_recommendation(avg_temp, avg_hum, rain_total)` from the source:
returns the sentinel when any input is `None`, otherwise the first matching
rule of the if-chain. -/
def crop_recommendation (avg_temp avg_hum rain_total : Option ℚ) : String :=
  match avg_temp, avg_hum, rain_total with
  | some t, some h, some r =>
    if 26 ≤ t ∧ 40 ≤ r ∧ 60 ≤ h then cropRiceMaize
    else if (20 ≤ t ∧ t < 26) ∧ (20 ≤ r ∧ r < 60) ∧ (40 ≤ h ∧ h ≤ 75) then cropPulses
    else if t < 20 ∧ r < 20 then cropWheat
    else cropMixed
  | _, _, _ => noData

/-- Rounding to 2 decimal places, modelling Python's `round(x, 2)`. -/
def round2 (x : ℚ) : ℚ := (round (x * 100) : ℚ) / 100

/-- The humidity term of `irrigation_advice` exactly as the source writes it:
`0.12 * (humidity / 10)`. -/
def humidity_term (humidity : ℚ) : ℚ := 0.12 * (humidity / 10)

/-- The fixed tip string returned by `irrigation_advice`. -/
def irrigationTip : String :=
  "💧 Irrigate in early morning; avoid evening irrigation if humidity is high."

/-- `irrigation_advice(tavg, humidity, rain_next_days)` from the source. -/
def irrigation_advice (tavg humidity rain_next_days : Option ℚ) : ℚ × String :=
  match tavg, humidity, rain_next_days with
  | some t, some h, some r =>
    let base := max 0 (0.35 * t - humidity_term h)
    let effective_rain_per_day := r / 3
    let mm_day := max 0 (base - 0.6 * effective_rain_per_day)
    (round2 mm_day, irrigationTip)
  | _, _, _ => (0, noData)

/-- `irrigation_advice` written with the spec's `0.012 · humidity` coefficient
instead of the source's `0.12 * (humidity / 10)`.  Modelled from the spec's
formula, for the refinement claim. -/
def irrigation_advice_specform (tavg humidity rain_next_days : Option ℚ) : ℚ × String :=
  match tavg, humidity, rain_next_days with
  | some t, some h, some r =>
    let base := max 0 (0.35 * t - 0.012 * h)
    let effective_rain_per_day := r / 3
    let mm_day := max 0 (base - 0.6 * effective_rain_per_day)
    (round2 mm_day, irrigationTip)
  | _, _, _ => (0, noData)

/-- High-risk message of `pest_disease_risk`. -/
def pestHigh : String :=
  "🔴 High risk: consider spacing, better airflow, and preventive fungicide if advised locally."

/-- Medium-risk message of `pest_disease_risk`. -/
def pestMedium : String :=
  "🟠 Medium risk: monitor closely; avoid late watering; remove infected leaves."

/-- Low-risk message of `pest_disease_risk`. -/
def pestLow : String :=
  "🟢 Low risk: keep normal hygiene and watch weather changes."

/-- `pest_disease_risk(tavg, humidity, rain_total)` from the source: three
sequential conditional increments of the score, a cap at 100, then message
banding on the capped score. -/
def pest_disease_risk (tavg humidity rain_total : Option ℚ) : ℕ × String :=
  match tavg, humidity, rain_total with
  | some t, some h, some r =>
    let score0 : ℕ := 0
    let score1 := if 20 ≤ t ∧ t ≤ 30 then score0 + 35 else score0
    let score2 := if 75 ≤ h then score1 + 40 else score1
    let score3 := if 20 ≤ r then score2 + 25 else score2
    let score := min 100 score3
    let msg :=
      if 70 ≤ score then pestHigh
      else if 40 ≤ score then pestMedium
      else pestLow
    (score, msg)
  | _, _, _ => (0, noData)

/-- Temperature band contribution of `yield_potential_index`
(22–28 best, 18–22 / 28–32 good, else poor). -/
def temp_band (t : ℚ) : ℕ :=
  if 22 ≤ t ∧ t ≤ 28 then 45
  else if (18 ≤ t ∧ t < 22) ∨ (28 < t ∧ t ≤ 32) then 30
  else 15

/-- Humidity band contribution of `yield_potential_index`
(50–75 best, 40–50 / 75–85 good, else poor). -/
def humidity_band (h : ℚ) : ℕ :=
  if 50 ≤ h ∧ h ≤ 75 then 30
  else if (40 ≤ h ∧ h < 50) ∨ (75 < h ∧ h ≤ 85) then 20
  else 10

/-- Rain band contribution of `yield_potential_index`
(10–40 best, 0–10 / 40–80 good, else poor). -/
def rain_band (r : ℚ) : ℕ :=
  if 10 ≤ r ∧ r ≤ 40 then 25
  else if (0 ≤ r ∧ r < 10) ∨ (40 < r ∧ r ≤ 80) then 15
  else 5

/-- `yield_potential_index(tavg, humidity, rain_total)` from the source: a
running score receives a temperature, a humidity and a rain increment, then
is capped at 100 (the Python `int(...)` on an integer-valued score is the
identity). -/
def yield_potential_index (tavg humidity rain_total : Option ℚ) : ℕ :=
  match tavg, humidity, rain_total with
  | some t, some h, some r =>
    let s0 : ℕ := 0
    let s1 := s0 + temp_band t
    let s2 := s1 + humidity_band h
    let s3 := s2 + rain_band r
    min 100 s3
  | _, _, _ => 0

/-- Helper: every band sum is at least 15 + 10 + 5 = 30 before the cap,
so the index on present inputs is at least 30. -/
theorem yield_ge_thirty (t h r : ℚ) :
    30 ≤ yield_potential_index (some t) (some h) (some r) := by
  have ht : 15 ≤ temp_band t := by
    unfold temp_band; split
    · omega
    · split <;> omega
  have hh : 10 ≤ humidity_band h := by
    unfold humidity_band; split
    · omega
    · split <;> omega
  have hr : 5 ≤ rain_band r := by
    unfold rain_band; split
    · omega
    · split <;> omega
  show 30 ≤ min 100 (0 + temp_band t + humidity_band h + rain_band r)
  omega

/-- C1: for every present input triple, `crop_recommendation` selects its
result by first-matching rule in the priority order rule 1 (Rice/Maize),
rule 2 (Pulses/Groundnut), rule 3 (Wheat/Barley), fallback
(Vegetables/Millets); in particular input (27, 65, 50) yields Rice/Maize. -/
theorem crop_recommendation_rule_priority :
    (∀ t h r : ℚ, crop_recommendation (some t) (some h) (some r) =
      if 26 ≤ t ∧ 40 ≤ r ∧ 60 ≤ h then cropRiceMaize
      else if (20 ≤ t ∧ t < 26) ∧ (20 ≤ r ∧ r < 60) ∧ (40 ≤ h ∧ h ≤ 75) then cropPulses
      else if t < 20 ∧ r < 20 then cropWheat
      else cropMixed) ∧
    crop_recommendation (some 27) (some 65) (some 50) = cropRiceMaize := by
  refine ⟨fun t h r => rfl, ?_⟩
  norm_num [crop_recommendation]

/-- C2: for every present input triple, `irrigation_advice` returns
`max(0, max(0, 0.35·t − 0.012·h) − 0.6·(r/3))` rounded to 2 decimal places,
paired with the fixed tip string; in particular inputs (25, 70, 30) give
1.91 mm/day. -/
theorem irrigation_advice_formula :
    (∀ t h r : ℚ,
      irrigation_advice (some t) (some h) (some r) =
        (round2 (max 0 (max 0 (0.35 * t - 0.012 * h) - 0.6 * (r / 3))), irrigationTip)) ∧
    (irrigation_advice (some 25) (some 70) (some 30)).1 = 1.91 := by
  constructor
  · intro t h r
    have hcoef : humidity_term h = 0.012 * h := by unfold humidity_term; ring
    simp only [irrigation_advice, hcoef]
  · show round2 (max 0 (max 0 (0.35 * 25 - humidity_term 70) - 0.6 * (30 / 3))) = 1.91
    norm_num [humidity_term, round2, round_eq]

/-- C3: for every present input triple, the pest/disease risk score is the
sum of three independent contributions (+35 for temperature in [20, 30],
+40 for humidity ≥ 75, +25 for rain ≥ 20) capped at 100, and the message is
banded at 70 (high) and 40 (medium); in particular inputs (25, 80, 25)
yield score 100 with the high-risk message. -/
theorem pest_disease_risk_additive :
    (∀ t h r : ℚ,
      (pest_disease_risk (some t) (some h) (some r)).1 =
        min 100 ((if 20 ≤ t ∧ t ≤ 30 then 35 else 0) +
                 (if 75 ≤ h then 40 else 0) +
                 (if 20 ≤ r then 25 else 0)) ∧
      (pest_disease_risk (some t) (some h) (some r)).2 =
        (if 70 ≤ (pest_disease_risk (some t) (some h) (some r)).1 then pestHigh
         else if 40 ≤ (pest_disease_risk (some t) (some h) (some r)).1 then pestMedium
         else pestLow)) ∧
    pest_disease_risk (some 25) (some 80) (some 25) = (100, pestHigh) := by
  refine ⟨fun t h r => ⟨?_, rfl⟩, ?_⟩
  · by_cases h1 : 20 ≤ t ∧ t ≤ 30 <;> by_cases h2 : 75 ≤ h <;> by_cases h3 : 20 ≤ r <;>
      simp [pest_disease_risk, h1, h2, h3]
  · show ((min 100 _ : ℕ), _) = ((100 : ℕ), pestHigh)
    norm_num [pest_disease_risk]

/-- C6: for every present input triple, the yield potential index equals the
sum of the three independent band contributions (temperature ≤ 45,
humidity ≤ 30, rain ≤ 25) capped at 100, and lies in [0, 100]. -/
theorem yield_potential_index_bands :
    ∀ t h r : ℚ,
      yield_potential_index (some t) (some h) (some r) =
        min 100 (temp_band t + humidity_band h + rain_band r) ∧
      temp_band t ≤ 45 ∧ humidity_band h ≤ 30 ∧ rain_band r ≤ 25 ∧
      yield_potential_index (some t) (some h) (some r) ≤ 100 := by
  intro t h r
  have ht : temp_band t ≤ 45 := by
    unfold temp_band; split
    · omega
    · split <;> omega
  have hh : humidity_band h ≤ 30 := by
    unfold humidity_band; split
    · omega
    · split <;> omega
  have hr : rain_band r ≤ 25 := by
    unfold rain_band; split
    · omega
    · split <;> omega
  refine ⟨?_, ht, hh, hr, ?_⟩
  · show min 100 (0 + temp_band t + humidity_band h + rain_band r) = _
    omega
  · show min 100 (0 + temp_band t + humidity_band h + rain_band r) ≤ 100
    omega

/-- C7: the source's humidity term `0.12 * (humidity / 10)` equals
`0.012 * humidity` for every humidity (exact arithmetic), hence the source
form of `irrigation_advice` and the spec's 0.012-coefficient form agree on
every input triple, present or absent. -/
theorem irrigation_humidity_coefficient_equiv :
    (∀ h : ℚ, humidity_term h = 0.012 * h) ∧
    (∀ tavg humidity rain_next_days : Option ℚ,
      irrigation_advice tavg humidity rain_next_days =
        irrigation_advice_specform tavg humidity rain_next_days) := by
  have hcoef : ∀ h : ℚ, humidity_term h = 0.012 * h := by
    intro h; unfold humidity_term; ring
  refine ⟨hcoef, ?_⟩
  intro tavg humidity rain_next_days
  match tavg, humidity, rain_next_days with
  | some t, some h, some r =>
    simp only [irrigation_advice, irrigation_advice_specform, hcoef]
  | none, _, _ => rfl
  | some _, none, _ => rfl
  | some _, some _, none => rfl

/-- C10: the yield potential index on present inputs is always at least 30
(each band contributes at least its poor-tier amount 15 + 10 + 5), so the
value 0 occurs only when some input is absent. -/
theorem yield_zero_only_when_absent :
    (∀ t h r : ℚ, 30 ≤ yield_potential_index (some t) (some h) (some r)) ∧
    (∀ a b c : Option ℚ, yield_potential_index a b c = 0 →
      a = none ∨ b = none ∨ c = none) := by
  refine ⟨yield_ge_thirty, ?_⟩
  intro a b c hzero
  match a, b, c with
  | some t, some h, some r =>
    have := yield_ge_thirty t h r
    omega
  | none, _, _ => exact Or.inl rfl
  | some _, none, _ => exact Or.inr (Or.inl rfl)
  | some _, some _, none => exact Or.inr (Or.inr rfl)

/-- C10 witness: the sentinel case at a concrete input. -/
theorem yield_zero_only_when_absent_witness :
    (none : Option ℚ) = none ∨ (some (1:ℚ)) = none ∨ (some (2:ℚ)) = none :=
  yield_zero_only_when_absent.2 none (some 1) (some 2) rfl

/-- C4: every advisory function returns its "no data" sentinel when any
input is absent, and on present inputs never produces an output equal to
that sentinel (for the pair-valued functions the accompanying string
distinguishes it; for the yield index the value 0 is below the minimum 30
attainable on present inputs). -/
theorem advisory_no_data_sentinels :
    (∀ a b c : Option ℚ, (a = none ∨ b = none ∨ c = none) →
      crop_recommendation a b c = noData ∧
      irrigation_advice a b c = (0, noData) ∧
      pest_disease_risk a b c = (0, noData) ∧
      yield_potential_index a b c = 0) ∧
    (∀ t h r : ℚ,
      crop_recommendation (some t) (some h) (some r) ≠ noData ∧
      (irrigation_advice (some t) (some h) (some r)).2 ≠ noData ∧
      (pest_disease_risk (some t) (some h) (some r)).2 ≠ noData ∧
      yield_potential_index (some t) (some h) (some r) ≠ 0) := by
  constructor
  · intro a b c habs
    match a, b, c with
    | none, _, _ => exact ⟨rfl, rfl, rfl, rfl⟩
    | some _, none, _ => exact ⟨rfl, rfl, rfl, rfl⟩
    | some _, some _, none => exact ⟨rfl, rfl, rfl, rfl⟩
    | some _, some _, some _ => simp at habs
  · intro t h r
    refine ⟨?_, ?_, ?_, ?_⟩
    · simp only [crop_recommendation]
      split
      · decide
      · split
        · decide
        · split <;> decide
    · show irrigationTip ≠ noData
      decide
    · have hmsg : ∀ s : ℕ,
          (if 70 ≤ s then pestHigh else if 40 ≤ s then pestMedium else pestLow) ≠ noData := by
        intro s
        split
        · decide
        · split
          · decide
          · decide
      exact hmsg _
    · have := yield_ge_thirty t h r
      omega

/-- C4 witness: an absent input at a concrete triple yields the sentinel. -/
theorem advisory_no_data_sentinels_witness :
    ((none : Option ℚ) = none ∨ (some (1:ℚ)) = none ∨ (some (2:ℚ)) = none) ∧
    crop_recommendation none (some 1) (some 2) = noData :=
  ⟨Or.inl rfl, (advisory_no_data_sentinels.1 none (some 1) (some 2) (Or.inl rfl)).1⟩

/-- One row of the `users.csv` registry. -/
structure UserRow where
  name : String
  email : String
  phone : String
  password : String

/-- The three user-visible outcomes of the Register tab handler. -/
inductive RegisterOutcome where
  | missingFields
  | duplicate
  | success
  deriving DecidableEq

/-- `save_user` from the source: appends one row to the registry. -/
def save_user (users : List UserRow) (name email phone password : String) :
    List UserRow :=
  users ++ [⟨name, email, phone, password⟩]

/-- The Register tab handler from the source: rejects when name, email or
password is empty (Python falsiness of strings), then rejects a duplicate
email, otherwise appends the new row via `save_user`. -/
def register (users : List UserRow) (name email_r phone password_r : String) :
    RegisterOutcome × List UserRow :=
  if name = "" ∨ email_r = "" ∨ password_r = "" then
    (RegisterOutcome.missingFields, users)
  else if email_r ∈ users.map UserRow.email then
    (RegisterOutcome.duplicate, users)
  else
    (RegisterOutcome.success, save_user users name email_r phone password_r)

/-- C8 counterexample: with an empty name and an already-registered email the
handler fails with the missing-fields warning, not the duplicate outcome, so
"fails with duplicate iff the email exists" is false as stated. -/
theorem register_duplicate_iff_counterexample :
    (register [⟨"Alice", "a@x.com", "1", "pw"⟩] "" "a@x.com" "" "pw2").1 ≠
      RegisterOutcome.duplicate ∧
    "a@x.com" ∈ ([⟨"Alice", "a@x.com", "1", "pw"⟩] : List UserRow).map UserRow.email := by
  constructor
  · decide
  · simp [UserRow.email]

/-- C8 (amended): when name, email and password are all non-empty,
registration fails with the duplicate outcome iff the email already exists
in the registry; any non-success outcome leaves the registry unchanged,
success appends exactly the one new row, and a second attempt with the same
email (and non-empty fields) always fails with the duplicate outcome. -/
theorem register_spec (users : List UserRow) (name email phone password : String)
    (hn : name ≠ "") (he : email ≠ "") (hp : password ≠ "") :
    ((register users name email phone password).1 = RegisterOutcome.duplicate ↔
      email ∈ users.map UserRow.email) ∧
    ((register users name email phone password).1 ≠ RegisterOutcome.success →
      (register users name email phone password).2 = users) ∧
    ((register users name email phone password).1 = RegisterOutcome.success →
      (register users name email phone password).2 =
        users ++ [⟨name, email, phone, password⟩]) ∧
    (∀ name2 phone2 password2 : String, name2 ≠ "" → password2 ≠ "" →
      (register (register users name email phone password).2
        name2 email phone2 password2).1 = RegisterOutcome.duplicate) := by
  have hfields : ¬(name = "" ∨ email = "" ∨ password = "") := by
    simp [hn, he, hp]
  by_cases hmem : email ∈ users.map UserRow.email
  · have hreg : register users name email phone password =
        (RegisterOutcome.duplicate, users) := by
      unfold register
      rw [if_neg hfields, if_pos hmem]
    refine ⟨?_, ?_, ?_, ?_⟩
    · rw [hreg]
      exact ⟨fun _ => hmem, fun _ => rfl⟩
    · intro _; rw [hreg]
    · intro hs; rw [hreg] at hs
      exact RegisterOutcome.noConfusion hs
    · intro name2 phone2 password2 hn2 hp2
      have hfields2 : ¬(name2 = "" ∨ email = "" ∨ password2 = "") := by
        simp [hn2, he, hp2]
      rw [hreg]
      show (register users name2 email phone2 password2).1 = _
      unfold register
      rw [if_neg hfields2, if_pos hmem]
  · have hreg : register users name email phone password =
        (RegisterOutcome.success, users ++ [⟨name, email, phone, password⟩]) := by
      unfold register
      rw [if_neg hfields, if_neg hmem]
      rfl
    refine ⟨?_, ?_, ?_, ?_⟩
    · rw [hreg]
      exact ⟨fun hd => RegisterOutcome.noConfusion hd, fun hm => absurd hm hmem⟩
    · intro hns; rw [hreg] at hns
      exact absurd rfl hns
    · intro _; rw [hreg]
    · intro name2 phone2 password2 hn2 hp2
      have hfields2 : ¬(name2 = "" ∨ email = "" ∨ password2 = "") := by
        simp [hn2, he, hp2]
      rw [hreg]
      show (register (users ++ [⟨name, email, phone, password⟩])
        name2 email phone2 password2).1 = _
      have hmem2 : email ∈ (users ++ [(⟨name, email, phone, password⟩ : UserRow)]).map
          UserRow.email := by
        simp
      unfold register
      rw [if_neg hfields2, if_pos hmem2]

/-- C8 witness: registering a fresh email on an empty registry is not the
duplicate outcome. -/
theorem register_spec_witness :
    ("A" : String) ≠ "" ∧
    ((register ([] : List UserRow) "A" "a@x.com" "1" "pw").1 = RegisterOutcome.duplicate ↔
      "a@x.com" ∈ ([] : List UserRow).map UserRow.email) :=
  ⟨by decide, (register_spec [] "A" "a@x.com" "1" "pw"
    (by decide) (by decide) (by decide)).1⟩

/-- A minimal JSON value type for the forecast service response. -/
inductive JsonVal where
  | null : JsonVal
  | str : String → JsonVal
  | num : ℚ → JsonVal
  | arr : List JsonVal → JsonVal
  | obj : List (String × JsonVal) → JsonVal

/-- `fetch_forecast` response handling from the source: returns `None` when
the decoded response object lacks the `"list"` key, otherwise the raw
response unchanged.  (The HTTP call itself is outside the model; the
response object is modelled as an association list of fields.) -/
def fetch_forecast (response : List (String × JsonVal)) :
    Option (List (String × JsonVal)) :=
  if "list" ∉ response.map Prod.fst then none
  else some response

/-- C9: the forecast fetcher returns the "unavailable" outcome (`none`) iff
the response lacks the `"list"` field, and whenever the field is present it
returns the raw response unchanged. -/
theorem fetch_forecast_unavailable_iff :
    (∀ response : List (String × JsonVal),
      (fetch_forecast response = none ↔ "list" ∉ response.map Prod.fst)) ∧
    (∀ response : List (String × JsonVal),
      "list" ∈ response.map Prod.fst → fetch_forecast response = some response) := by
  constructor
  · intro response
    unfold fetch_forecast
    split
    · simp_all
    · simp_all
  · intro response hmem
    unfold fetch_forecast
    simp [hmem]

/-- C9 witness: a response containing the `"list"` field is returned
unchanged. -/
theorem fetch_forecast_unavailable_iff_witness :
    ("list" ∈ ([("list", JsonVal.null)] : List (String × JsonVal)).map Prod.fst) ∧
    fetch_forecast [("list", JsonVal.null)] = some [("list", JsonVal.null)] :=
  ⟨by simp, fetch_forecast_unavailable_iff.2 [("list", JsonVal.null)] (by simp)⟩

/-- One row built by `to_frames` from a forecast entry: `dt_txt` timestamp,
temperature, humidity, wind speed, 3-hour precipitation (already defaulted
to 0.0 when absent), weather category and description. -/
structure ForecastPoint where
  time : String
  temp : ℚ
  humidity : ℚ
  wind : ℚ
  rain_3h : ℚ
  weather : String
  desc : String

/-- The calendar date of a forecast point, modelling
`pd.to_datetime(df3h["time"]).dt.date`: for the service's ISO-formatted
`dt_txt` (`"YYYY-MM-DD HH:MM:SS"`) the date is the first 10 characters, and
lexicographic order on these date strings is chronological order. -/
def dateOf (p : ForecastPoint) : String := p.time.take 10

/-- The (with-duplicates) list of dates of a row sequence. -/
def datesOf (rows : List ForecastPoint) : List String := rows.map dateOf

/-- The entries of one calendar date, in original order. -/
def groupOn (rows : List ForecastPoint) (d : String) : List ForecastPoint :=
  rows.filter (fun p => dateOf p = d)

/-- Minimum of a list of rationals (0 on the empty list; only applied to
nonempty groups), modelling the pandas `min` aggregation. -/
def listMinD (l : List ℚ) : ℚ :=
  match l with
  | [] => 0
  | x :: xs => xs.foldl min x

/-- Maximum of a list of rationals, modelling the pandas `max` aggregation. -/
def listMaxD (l : List ℚ) : ℚ :=
  match l with
  | [] => 0
  | x :: xs => xs.foldl max x

/-- Mean of a list of rationals, modelling the pandas `mean` aggregation. -/
def meanD (l : List ℚ) : ℚ := l.sum / l.length

/-- One row of the daily-aggregate frame `dfd`. -/
structure DailyAggregate where
  date : String
  tmin : ℚ
  tmax : ℚ
  tavg : ℚ
  humidity_mean : ℚ
  wind_mean : ℚ
  rain_total : ℚ

/-- The daily aggregate of one calendar date's entries, as computed by the
`groupby("date").agg(...)` call of `to_frames`. -/
def dailyAgg (rows : List ForecastPoint) (d : String) : DailyAggregate :=
  let g := groupOn rows d
  { date := d
    tmin := listMinD (g.map ForecastPoint.temp)
    tmax := listMaxD (g.map ForecastPoint.temp)
    tavg := meanD (g.map ForecastPoint.temp)
    humidity_mean := meanD (g.map ForecastPoint.humidity)
    wind_mean := meanD (g.map ForecastPoint.wind)
    rain_total := (g.map ForecastPoint.rain_3h).sum }

/-- `to_frames` from the source: the per-interval rows unchanged, and one
aggregate row per distinct calendar date, in ascending date order (pandas
`groupby` sorts its keys). -/
def to_frames (rows : List ForecastPoint) :
    List ForecastPoint × List DailyAggregate :=
  (rows, (List.insertionSort (· ≤ ·) (datesOf rows).dedup).map (dailyAgg rows))

theorem foldl_min_le_init (xs : List ℚ) (a : ℚ) : xs.foldl min a ≤ a := by
  induction xs generalizing a with
  | nil => exact le_refl a
  | cons y ys ih => exact le_trans (ih (min a y)) (min_le_left a y)

theorem foldl_min_le_of_mem (xs : List ℚ) (a x : ℚ) (hx : x ∈ xs) :
    xs.foldl min a ≤ x := by
  induction xs generalizing a with
  | nil => cases hx
  | cons y ys ih =>
    rcases List.mem_cons.mp hx with rfl | hmem
    · exact le_trans (foldl_min_le_init ys (min a x)) (min_le_right a x)
    · exact ih (min a y) hmem

theorem foldl_min_mem (xs : List ℚ) (a : ℚ) :
    xs.foldl min a = a ∨ xs.foldl min a ∈ xs := by
  induction xs generalizing a with
  | nil => exact Or.inl rfl
  | cons y ys ih =>
    show (ys.foldl min (min a y) = a) ∨ _ ∈ y :: ys
    rcases ih (min a y) with heq | hmem
    · rcases min_choice a y with h1 | h1
      · exact Or.inl (heq.trans h1)
      · exact Or.inr (by rw [List.foldl_cons, heq, h1]; exact List.mem_cons_self y ys)
    · exact Or.inr (List.mem_cons_of_mem y hmem)

theorem init_le_foldl_max (xs : List ℚ) (a : ℚ) : a ≤ xs.foldl max a := by
  induction xs generalizing a with
  | nil => exact le_refl a
  | cons y ys ih => exact le_trans (le_max_left a y) (ih (max a y))

theorem mem_le_foldl_max (xs : List ℚ) (a x : ℚ) (hx : x ∈ xs) :
    x ≤ xs.foldl max a := by
  induction xs generalizing a with
  | nil => cases hx
  | cons y ys ih =>
    rcases List.mem_cons.mp hx with rfl | hmem
    · exact le_trans (le_max_right a x) (init_le_foldl_max ys (max a x))
    · exact ih (max a y) hmem

theorem foldl_max_mem (xs : List ℚ) (a : ℚ) :
    xs.foldl max a = a ∨ xs.foldl max a ∈ xs := by
  induction xs generalizing a with
  | nil => exact Or.inl rfl
  | cons y ys ih =>
    show (ys.foldl max (max a y) = a) ∨ _ ∈ y :: ys
    rcases ih (max a y) with heq | hmem
    · rcases max_choice a y with h1 | h1
      · exact Or.inl (heq.trans h1)
      · exact Or.inr (by rw [List.foldl_cons, heq, h1]; exact List.mem_cons_self y ys)
    · exact Or.inr (List.mem_cons_of_mem y hmem)

theorem listMinD_le_of_mem {l : List ℚ} {x : ℚ} (hx : x ∈ l) : listMinD l ≤ x := by
  match l with
  | [] => cases hx
  | y :: ys =>
    show ys.foldl min y ≤ x
    rcases List.mem_cons.mp hx with rfl | hmem
    · exact foldl_min_le_init ys x
    · exact foldl_min_le_of_mem ys y x hmem

theorem le_listMaxD_of_mem {l : List ℚ} {x : ℚ} (hx : x ∈ l) : x ≤ listMaxD l := by
  match l with
  | [] => cases hx
  | y :: ys =>
    show x ≤ ys.foldl max y
    rcases List.mem_cons.mp hx with rfl | hmem
    · exact init_le_foldl_max ys x
    · exact mem_le_foldl_max ys y x hmem

theorem listMinD_mem {l : List ℚ} (h : l ≠ []) : listMinD l ∈ l := by
  match l with
  | [] => exact absurd rfl h
  | y :: ys =>
    show ys.foldl min y ∈ y :: ys
    rcases foldl_min_mem ys y with heq | hmem
    · rw [heq]; exact List.mem_cons_self y ys
    · exact List.mem_cons_of_mem y hmem

theorem listMaxD_mem {l : List ℚ} (h : l ≠ []) : listMaxD l ∈ l := by
  match l with
  | [] => exact absurd rfl h
  | y :: ys =>
    show ys.foldl max y ∈ y :: ys
    rcases foldl_max_mem ys y with heq | hmem
    · rw [heq]; exact List.mem_cons_self y ys
    · exact List.mem_cons_of_mem y hmem

/-- C5: when the entries span exactly two calendar dates, `to_frames`
produces exactly 2 daily-aggregate rows, in strictly increasing
(chronological) date order; each row's `rain_total` is the sum of that
day's precipitation fields, and its `tmin`/`tmax` are a lower/upper bound
of all of that day's temperatures, each attained by some entry. -/
theorem to_frames_two_dates (rows : List ForecastPoint)
    (hspan : (datesOf rows).dedup.length = 2) :
    (to_frames rows).2.length = 2 ∧
    ((to_frames rows).2.map DailyAggregate.date).Sorted (· < ·) ∧
    ∀ a ∈ (to_frames rows).2,
      a.rain_total = ((groupOn rows a.date).map ForecastPoint.rain_3h).sum ∧
      (∀ p ∈ rows, dateOf p = a.date → a.tmin ≤ p.temp ∧ p.temp ≤ a.tmax) ∧
      (∃ p ∈ rows, dateOf p = a.date ∧ p.temp = a.tmin) ∧
      (∃ p ∈ rows, dateOf p = a.date ∧ p.temp = a.tmax) := by
  have hlen : (to_frames rows).2.length = 2 := by
    show ((List.insertionSort (· ≤ ·) (datesOf rows).dedup).map (dailyAgg rows)).length = 2
    rw [List.length_map, List.length_insertionSort, hspan]
  have hdateseq : (to_frames rows).2.map DailyAggregate.date =
      List.insertionSort (· ≤ ·) (datesOf rows).dedup := by
    show ((List.insertionSort (· ≤ ·) (datesOf rows).dedup).map (dailyAgg rows)).map
        DailyAggregate.date = _
    rw [List.map_map]
    have hcomp : (DailyAggregate.date ∘ dailyAgg rows) = id := funext fun d => rfl
    rw [hcomp, List.map_id]
  have hsortedle : (List.insertionSort (· ≤ ·) (datesOf rows).dedup).Sorted (· ≤ ·) :=
    List.sorted_insertionSort _ _
  have hnodup : (List.insertionSort (· ≤ ·) (datesOf rows).dedup).Nodup :=
    ((List.perm_insertionSort _ _).nodup_iff).mpr (List.nodup_dedup _)
  have hsorted : ((to_frames rows).2.map DailyAggregate.date).Sorted (· < ·) := by
    rw [hdateseq]
    exact hsortedle.lt_of_le hnodup
  refine ⟨hlen, hsorted, ?_⟩
  intro a ha
  obtain ⟨d, hdL, rfl⟩ := List.mem_map.mp ha
  have hdmem : d ∈ datesOf rows :=
    (List.mem_dedup).mp ((List.mem_insertionSort _).mp hdL)
  obtain ⟨p0, hp0rows, hp0date⟩ := List.mem_map.mp hdmem
  have hp0g : p0 ∈ groupOn rows d :=
    List.mem_filter.mpr ⟨hp0rows, by simpa using hp0date⟩
  have hgne : groupOn rows d ≠ [] := by
    intro hnil
    rw [hnil] at hp0g
    cases hp0g
  have hgsub : ∀ q ∈ groupOn rows d, q ∈ rows ∧ dateOf q = d := by
    intro q hq
    have hmf := List.mem_filter.mp hq
    exact ⟨hmf.1, by simpa using hmf.2⟩
  have hmapne : (groupOn rows d).map ForecastPoint.temp ≠ [] := by
    intro hnil
    exact hgne (List.map_eq_nil_iff.mp hnil)
  refine ⟨rfl, ?_, ?_, ?_⟩
  · intro p hp hpd
    have hpg : p ∈ groupOn rows d :=
      List.mem_filter.mpr ⟨hp, by simp only [decide_eq_true_eq]; exact hpd⟩
    exact ⟨listMinD_le_of_mem (List.mem_map_of_mem _ hpg),
           le_listMaxD_of_mem (List.mem_map_of_mem _ hpg)⟩
  · obtain ⟨q, hqg, hqt⟩ := List.mem_map.mp (listMinD_mem hmapne)
    obtain ⟨hqrows, hqdate⟩ := hgsub q hqg
    exact ⟨q, hqrows, hqdate, hqt⟩
  · obtain ⟨q, hqg, hqt⟩ := List.mem_map.mp (listMaxD_mem hmapne)
    obtain ⟨hqrows, hqdate⟩ := hgsub q hqg
    exact ⟨q, hqrows, hqdate, hqt⟩

/-- A concrete two-day forecast row list for the aggregator witness. -/
def witnessRows : List ForecastPoint :=
  [⟨"2025-01-01 00:00:00", 10, 50, 3, 0, "Clear", "clear sky"⟩,
   ⟨"2025-01-01 03:00:00", 12, 55, 4, 1, "Rain", "light rain"⟩,
   ⟨"2025-01-02 00:00:00", 8, 60, 2, 2, "Rain", "moderate rain"⟩]

/-- C5 witness: the two-day span hypothesis holds for `witnessRows` and the
aggregator produces exactly 2 rows there. -/
theorem to_frames_two_dates_witness :
    (datesOf witnessRows).dedup.length = 2 ∧ (to_frames witnessRows).2.length = 2 :=
  ⟨by decide, (to_frames_two_dates witnessRows (by decide)).1⟩
